import Mathlib

/-!
Shallow embedding of `dpo_train.py` (ChatLM-Smol-0.2B DPO fine-tuning script).

The script is a thin orchestration layer: it loads a tokenizer, loads or
constructs a base model, loads a preference dataset, assembles training
hyperparameters, delegates to an external DPO trainer, and saves artifacts
to paths derived from the source model path by string suffixing.

External library calls (transformers, torch, datasets, trl, peft, pandas)
are modelled as an explicit record of fallible operations (`Libs`); the
authored control flow of the script is translated faithfully, including its
branch on `os.path.isdir`, the string formulas that derive save paths, and
the aliasing between the base model object and the peft wrapper during
`merge_and_unload` (modelled with a tiny heap, since the merge mutates the
base model in place).
-/

/-! ## Python string helpers: `str.split(sep)` and `sep.join(xs)` -/

/-- Python `str.split(sep)` on a single-character separator.  Always returns
at least one (possibly empty) segment; empty segments between consecutive
separators are kept, as in Python. -/
def pySplitAux (sep : Char) : List Char → List Char → List String
  | [], acc => [String.mk acc.reverse]
  | c :: cs, acc =>
      if c = sep then String.mk acc.reverse :: pySplitAux sep cs []
      else pySplitAux sep cs (c :: acc)

def pySplit (s : String) (sep : Char) : List String :=
  pySplitAux sep s.data []

/-- Python `sep.join(xs)`. -/
def pyJoin (sep : String) (xs : List String) : String :=
  String.intercalate sep xs

/-- The path formula `'/'.join(path.split('/')[0:-1])` used at lines 121 and
149 of `dpo_train.py`: the path with its last `/`-separated segment removed. -/
def removeLastSegment (p : String) : String :=
  pyJoin "/" ((pySplit p '/').dropLast)

/-- The nonempty `/`-separated segments of a path.  Under POSIX resolution,
empty segments (duplicate or trailing slashes) do not change the denoted
directory, so two paths with the same nonempty segments and the same
absolute/relative status denote the same directory. -/
def pathSegments (p : String) : List String :=
  (pySplit p '/').filter (fun s => s != "")

/-! ## Deterministic shuffle (model of `datasets.Dataset.shuffle(seed)`)

`Dataset.shuffle(seed)` computes a permutation of the row indices from the
seed alone and reindexes the dataset.  The exact permutation used by the
library (NumPy's generator) is not reproduced here; what matters for the
script is that it is a pure function of the seed and the length, which this
model makes explicit: a Fisher–Yates walk driven by a linear congruential
generator seeded with the given seed. -/

def lcg (s : Nat) : Nat :=
  (6364136223846793005 * s + 1442695040888963407) % (2 ^ 64)

/-- Fisher–Yates on a list of indices, with explicit fuel so the function is
structurally recursive (the fuel is always the list length). -/
def fyFuel : Nat → Nat → List Nat → List Nat
  | 0, _, _ => []
  | _ + 1, _, [] => []
  | fuel + 1, s, x :: rest =>
      let l := x :: rest
      let i := s % l.length
      l.getD i 0 :: fyFuel fuel (lcg s) (l.eraseIdx i)

/-- The permutation of `[0, …, n-1]` determined by `seed`. -/
def permIndices (seed n : Nat) : List Nat :=
  fyFuel n seed (List.range n)

/-- Reindexing a list by the seed-determined permutation: the model of
`Dataset.shuffle(seed)`. -/
def pyShuffle (seed : Nat) (xs : List α) : List α :=
  (permIndices seed xs.length).filterMap (fun i => xs.get? i)

/-! ## Data model -/

/-- A preference sample: the (prompt, chosen, rejected) triple of one
JSON-lines row.  `Dataset.map` keys the same fields before and after the
transformation, so input rows and produced rows share this type. -/
structure RawSample where
  prompt : String
  chosen : String
  rejected : String
deriving DecidableEq, Repr

/-- `split_prompt_and_responses` (lines 32–38): appends the literal `[EOS]`
marker to each of the three fields. -/
def split_prompt_and_responses (sample : RawSample) : RawSample :=
  { prompt := sample.prompt ++ "[EOS]"
    chosen := sample.chosen ++ "[EOS]"
    rejected := sample.rejected ++ "[EOS]" }

/-- A model weight state: named tensors, with tensor contents abstracted to
integers (their numeric content plays no role in the script's logic). -/
abbrev StateDict := List (String × Int)

/-- The tokenizer facets the script reads: `len(tokenizer)`,
`tokenizer.pad_token_id`, `tokenizer.eos_token_id`. -/
structure Tokenizer where
  length : Nat
  pad_token_id : Nat
  eos_token_id : Nat
deriving DecidableEq, Repr

/-- Modelled from the spec: `config.T5ModelConfig` is repository code not
included here; the spec describes configuration objects as flat key-value
settings consumed opaquely, so the base architecture settings are kept
opaque. -/
structure T5ModelConfig where
deriving DecidableEq, Repr

/-- Modelled from the spec: `utils.functions.get_T5_config` is repository
code not included here; per its call sites it combines the base architecture
settings with the tokenizer-derived vocabulary size and special token ids
into the architecture configuration. -/
structure T5Config where
  base : T5ModelConfig
  vocab_size : Nat
  decoder_start_token_id : Nat
  eos_token_id : Nat
deriving DecidableEq, Repr

def get_T5_config (base : T5ModelConfig) (vocab_size decoder_start_token_id eos_token_id : Nat) : T5Config :=
  { base := base
    vocab_size := vocab_size
    decoder_start_token_id := decoder_start_token_id
    eos_token_id := eos_token_id }

/-- Modelled from the spec: `model.chat_model.TextToTextModel` is repository
code not included here; the spec describes the model artifact as an opaque
weight blob, so a model is its architecture configuration plus its weight
state. -/
structure TextToTextModel where
  config : T5Config
  weights : StateDict
deriving DecidableEq, Repr

/-- Constructing `TextToTextModel(t5_config)`: a freshly built architecture
whose weights are randomly initialised.  The random draw is an explicit
argument, so that two constructions may start from different weights. -/
def TextToTextModel.init (config : T5Config) (randomInit : StateDict) : TextToTextModel :=
  { config := config, weights := randomInit }

abbrev Err := String

/-- `torch.nn.Module.load_state_dict` with its default strict key checking:
on success the model's weights are exactly the loaded state. -/
def TextToTextModel.load_state_dict (m : TextToTextModel) (sd : StateDict) : Except Err TextToTextModel :=
  if sd.map Prod.fst = m.weights.map Prod.fst then
    Except.ok { m with weights := sd }
  else
    Except.error "load_state_dict: missing or unexpected keys in state_dict"

/-! ## Configuration records -/

/-- The LoRA adapter configuration fields set by the script (`peft.LoraConfig`).
`TaskType.SEQ_2_SEQ_LM` is represented by its name. -/
structure LoraConfig where
  task_type : String
  inference_mode : Bool
  r : Nat
  lora_alpha : Nat
  lora_dropout : Rat
  bias : String
deriving DecidableEq, Repr

/-- Modelled from the spec: `config.DpoConfig` is repository code not
included here; per the spec it is a flat record of file paths and training
hyperparameters, read once at startup and immutable.  Exactly the fields the
script reads are modelled. -/
structure DpoConfig where
  tokenizer_dir : String
  sft_model_file : String
  dpo_train_file : String
  output_dir : String
  log_dir : String
  per_device_train_batch_size : Nat
  num_train_epochs : Nat
  gradient_accumulation_steps : Nat
  logging_steps : Nat
  save_steps : Nat
  warmup_steps : Nat
  seed : Nat
  max_seq_len : Nat
  learning_rate : Rat
  beta : Rat
  fp16 : Bool
deriving DecidableEq, Repr

/-- Modelled from the spec: the default values of `config.DpoConfig` (used
by the `DpoConfig()` call in the `__main__` block) are not included here;
these placeholders are consistent with the spec's description of the paths.
No claim depends on the particular values. -/
def DpoConfig.default : DpoConfig :=
  { tokenizer_dir := "model_save/tokenizer"
    sft_model_file := "model_save/chat_small_t5.best.bin"
    dpo_train_file := "data/dpo_train.json"
    output_dir := "model_save/dpo"
    log_dir := "logs"
    per_device_train_batch_size := 2
    num_train_epochs := 4
    gradient_accumulation_steps := 4
    logging_steps := 100
    save_steps := 2000
    warmup_steps := 0
    seed := 23333
    max_seq_len := 320
    learning_rate := 1 / 100000
    beta := 1 / 10
    fp16 := true }

/-- The `transformers.TrainingArguments` record assembled at lines 72–91,
with the literal values the script hardcodes. -/
structure TrainingArguments where
  per_device_train_batch_size : Nat
  num_train_epochs : Nat
  auto_find_batch_size : Bool
  remove_unused_columns : Bool
  gradient_accumulation_steps : Nat
  learning_rate : Rat
  logging_first_step : Bool
  logging_steps : Nat
  save_steps : Nat
  output_dir : String
  optim : String
  report_to : String
  log_level : String
  warmup_steps : Nat
  bf16 : Bool
  fp16 : Bool
  seed : Nat
  logging_dir : String
deriving DecidableEq, Repr

def mkTrainingArguments (config : DpoConfig) : TrainingArguments :=
  { per_device_train_batch_size := config.per_device_train_batch_size
    num_train_epochs := config.num_train_epochs
    auto_find_batch_size := true
    remove_unused_columns := false
    gradient_accumulation_steps := config.gradient_accumulation_steps
    learning_rate := config.learning_rate
    logging_first_step := true
    logging_steps := config.logging_steps
    save_steps := config.save_steps
    output_dir := config.output_dir
    optim := "adafactor"
    report_to := "tensorboard"
    log_level := "info"
    warmup_steps := config.warmup_steps
    bf16 := false
    fp16 := config.fp16
    seed := config.seed
    logging_dir := config.log_dir }

/-- One row of `dpo_trainer.state.log_history`, abstracted. -/
abbrev LogRow := List (String × Rat)

abbrev LogHistory := List LogRow

/-- The arguments the script passes to the `DPOTrainer` constructor
(lines 94–108), with the literal values it hardcodes. -/
structure DPOTrainerInit where
  model : TextToTextModel
  ref_model : TextToTextModel
  peft_config : Option LoraConfig
  args : TrainingArguments
  beta : Rat
  train_dataset : List RawSample
  eval_dataset : Option (List RawSample)
  tokenizer : Tokenizer
  max_length : Nat
  max_target_length : Nat
  max_prompt_length : Nat
  generate_during_eval : Bool
  is_encoder_decoder : Bool
deriving Repr

def mkDPOTrainerInit (config : DpoConfig) (peft_config : Option LoraConfig)
    (model_train model_ref : TextToTextModel)
    (train_dataset : List RawSample) (eval_dataset : Option (List RawSample))
    (tokenizer : Tokenizer) : DPOTrainerInit :=
  { model := model_train
    ref_model := model_ref
    peft_config := peft_config
    args := mkTrainingArguments config
    beta := config.beta
    train_dataset := train_dataset
    eval_dataset := eval_dataset
    tokenizer := tokenizer
    max_length := config.max_seq_len
    max_target_length := config.max_seq_len
    max_prompt_length := config.max_seq_len
    generate_during_eval := true
    is_encoder_decoder := true }

/-! ## External library operations

Each operation the script delegates to an external library is a field of
`Libs`.  Every fallible operation returns `Except Err`; the script authors
no error handling, so in the embedding every result is sequenced with plain
monadic bind. -/

structure Libs where
  /-- `PreTrainedTokenizerFast.from_pretrained(dir)` -/
  fromPretrainedTok : String → Except Err Tokenizer
  /-- `os.path.isdir(path)` -/
  isdir : String → Bool
  /-- `TextToTextModel.from_pretrained(dir)` -/
  fromPretrainedModel : String → Except Err TextToTextModel
  /-- `torch.load(file, map_location='cpu')` -/
  torchLoad : String → Except Err StateDict
  /-- `load_dataset('json', data_files=file, split=split, cache_dir=cache_dir)` -/
  loadDatasetJson : (split : String) → (file : String) → (cache_dir : String) → Except Err (List RawSample)
  /-- `DPOTrainer(...).train()`, returning `state.log_history` -/
  trainerTrain : DPOTrainerInit → Except Err LogHistory
  /-- `pd.DataFrame(log).to_csv(file)` -/
  saveCsv : String → LogHistory → Except Err Unit
  /-- `dpo_trainer.save_model(dir)` -/
  saveModel : DPOTrainerInit → String → Except Err Unit
  /-- `PeftModel.from_pretrained(model=…, model_id=dir, config=…, adapter_name=…)`:
  the adapter weight state read from `dir`. -/
  peftFromPretrained : (model_id : String) → LoraConfig → Except Err StateDict
  /-- `peft_model.load_adapter(model_id=dir, adapter_name=…)`: the adapter
  weight state read from `dir`. -/
  loadAdapter : (model_id : String) → Except Err StateDict
  /-- `model.save_pretrained(file)` applied to a weight state. -/
  savePretrained : String → StateDict → Except Err Unit

/-! ## `get_dataset` (lines 20–40)

The `entropy` argument stands for the ambient nondeterminism a run could in
principle observe (time, OS randomness): the script ignores it and passes
the literal seed 2333 to `shuffle`. -/

def get_dataset (L : Libs) (entropy : Nat) (split : String) (file : String) (cache_dir : String) : Except Err (List RawSample) := do
  let dataset ← L.loadDatasetJson split file cache_dir
  pure (pyShuffle 2333 (dataset.map split_prompt_and_responses))

/-! ## `train_dpo` (lines 43–124) -/

/-- Step 2 of `train_dpo` (lines 49–62): resolve the trainable model and the
frozen reference model, either both `from_pretrained` on a saved directory,
or both a freshly constructed architecture with the raw weight-state file
loaded onto each.  `r1` and `r2` are the random initial weights of the two
fresh constructions. -/
def loadModelPair (L : Libs) (config : DpoConfig) (tokenizer : Tokenizer) (r1 r2 : StateDict) : Except Err (TextToTextModel × TextToTextModel) :=
  if L.isdir config.sft_model_file then do
    let model_train ← L.fromPretrainedModel config.sft_model_file
    let model_ref ← L.fromPretrainedModel config.sft_model_file
    pure (model_train, model_ref)
  else do
    let t5_config := get_T5_config {} tokenizer.length tokenizer.pad_token_id tokenizer.eos_token_id
    let sd_train ← L.torchLoad config.sft_model_file
    let model_train ← (TextToTextModel.init t5_config r1).load_state_dict sd_train
    let sd_ref ← L.torchLoad config.sft_model_file
    let model_ref ← (TextToTextModel.init t5_config r2).load_state_dict sd_ref
    pure (model_train, model_ref)

/-- The observable outcome of a `train_dpo` run. -/
structure TrainDpoResult where
  savedDir : String
  logFile : String
  modelTrain : TextToTextModel
  modelRef : TextToTextModel
deriving DecidableEq, Repr

/-- `train_dpo(config, peft_config)`.  `now` is the `time.strftime` stamp;
`entropy`, `r1`, `r2` are the ambient nondeterminism inputs (see
`get_dataset` and `loadModelPair`). -/
def train_dpo (L : Libs) (config : DpoConfig) (peft_config : Option LoraConfig)
    (entropy : Nat) (r1 r2 : StateDict) (now : String) : Except Err TrainDpoResult := do
  let tokenizer ← L.fromPretrainedTok config.tokenizer_dir
  let pair ← loadModelPair L config tokenizer r1 r2
  let train_dataset ← get_dataset L entropy "train" config.dpo_train_file ".cache"
  let eval_dataset : Option (List RawSample) := none
  let dpo_trainer := mkDPOTrainerInit config peft_config pair.1 pair.2 train_dataset eval_dataset tokenizer
  let log_history ← L.trainerTrain dpo_trainer
  let logFile := "./logs/dpo_train_log_" ++ now ++ ".csv"
  let _ ← L.saveCsv logFile log_history
  let suffixe := if peft_config.isSome then "/lora/" else "/dpo"
  let model_save_dir := pyJoin "/" ((pySplit config.sft_model_file '/').dropLast) ++ suffixe
  let _ ← L.saveModel dpo_trainer model_save_dir
  pure { savedDir := model_save_dir
         logFile := logFile
         modelTrain := pair.1
         modelRef := pair.2 }

/-! ## `merge_lora_weight_into_model` (lines 126–169)

In the Python code the local variable `sft_model` and the peft wrapper's
base model are the *same object*: `merge_and_unload()` merges the adapter
weights into the base model's tensors in place, so the subsequent
`sft_model.save_pretrained(...)` writes the merged weights even though the
script saves `sft_model` rather than the value returned by
`merge_and_unload`.  The embedding makes the aliasing explicit with a tiny
heap of weight states: `sft_model` is a reference, the peft wrapper holds
the same reference, and the merge writes through it. -/

structure Heap where
  cells : List StateDict
deriving Repr

abbrev Ref := Nat

def Heap.empty : Heap := { cells := [] }

def Heap.alloc (h : Heap) (w : StateDict) : Ref × Heap :=
  (h.cells.length, { cells := h.cells ++ [w] })

def Heap.read (h : Heap) (r : Ref) : StateDict :=
  h.cells.getD r []

def Heap.write (h : Heap) (r : Ref) (w : StateDict) : Heap :=
  { cells := h.cells.set r w }

/-- `merge_and_unload`'s weight arithmetic: each base tensor receives the
contribution of the adapter tensor of the same name (if any). -/
def mergedWeights (base adapter : StateDict) : StateDict :=
  base.map (fun kv => (kv.1, kv.2 + ((adapter.lookup kv.1).getD 0)))

/-- The observable outcome of a `merge_lora_weight_into_model` run. -/
structure MergeResult where
  adapterDir : String
  saveFile : String
  baseWeightsLoaded : StateDict
  baseWeightsAfterMerge : StateDict
  adapterWeights : StateDict
  savedWeights : StateDict
deriving DecidableEq, Repr

/-- `merge_lora_weight_into_model(config, peft_config)`.  `rand` is the
random initial weight draw of the fresh construction in the non-directory
branch. -/
def merge_lora_weight_into_model (L : Libs) (config : DpoConfig) (peft_config : LoraConfig)
    (rand : StateDict) : Except Err MergeResult := do
  let tokenizer ← L.fromPretrainedTok config.tokenizer_dir
  let sft_model ←
    if L.isdir config.sft_model_file then
      L.fromPretrainedModel config.sft_model_file
    else do
      let t5_config := get_T5_config {} tokenizer.length tokenizer.pad_token_id tokenizer.eos_token_id
      let sd ← L.torchLoad config.sft_model_file
      (TextToTextModel.init t5_config rand).load_state_dict sd
  -- the local variable `sft_model` is a reference into the heap
  let (sftRef, heap1) := Heap.empty.alloc sft_model.weights
  let adapter_save_dir := pyJoin "/" ((pySplit config.sft_model_file '/').dropLast) ++ "/lora"
  -- `PeftModel.from_pretrained(model=sft_model, model_id=adapter_save_dir, …)`:
  -- the wrapper holds the same reference `sftRef`
  let _adapter0 ← L.peftFromPretrained adapter_save_dir peft_config
  -- `peft_model.load_adapter(model_id=adapter_save_dir, adapter_name='adapter')`
  let adapter ← L.loadAdapter adapter_save_dir
  -- `peft_model.merge_and_unload()`: merges into the base model in place,
  -- through the shared reference
  let heap2 := heap1.write sftRef (mergedWeights (heap1.read sftRef) adapter)
  let save_merge_file := config.sft_model_file ++ ".dpo_lora_merged"
  -- `sft_model.save_pretrained(save_merge_file)` reads the same reference
  let saved := heap2.read sftRef
  let _ ← L.savePretrained save_merge_file saved
  pure { adapterDir := adapter_save_dir
         saveFile := save_merge_file
         baseWeightsLoaded := sft_model.weights
         baseWeightsAfterMerge := heap2.read sftRef
         adapterWeights := adapter
         savedWeights := saved }

/-! ## The `__main__` block (lines 172–189) -/

/-- The hardcoded `LoraConfig` constructed in the `__main__` block
(lines 174–181). -/
def mainPeftConfig : LoraConfig :=
  { task_type := "SEQ_2_SEQ_LM"
    inference_mode := false
    r := 16
    lora_alpha := 16
    lora_dropout := 1 / 10
    bias := "all" }

/-- The `__main__` block: constructs `mainPeftConfig` and a default
`DpoConfig`, then calls `train_dpo(dpo_config, peft_config=None)` — the
constructed adapter settings are not passed, and the
`merge_lora_weight_into_model` call is commented out in the source.  The
entry point takes no CLI flags: its only inputs are the ambient
nondeterminism arguments. -/
def pymain (L : Libs) (entropy : Nat) (r1 r2 : StateDict) (now : String) : Except Err TrainDpoResult :=
  let peft_config := mainPeftConfig
  let dpo_config := DpoConfig.default
  let _ := peft_config
  -- 1. Train: the script passes `peft_config=None` here
  train_dpo L dpo_config none entropy r1 r2 now
  -- 2. `merge_lora_weight_into_model(dpo_config, peft_config)` is commented out

/-! ## Concrete fixtures used by the witness theorems -/

def tok0 : Tokenizer := { length := 8, pad_token_id := 0, eos_token_id := 1 }

def t5c0 : T5Config := get_T5_config {} tok0.length tok0.pad_token_id tok0.eos_token_id

def raw0 : RawSample := { prompt := "a", chosen := "b", rejected := "c" }

def sdStored : StateDict := [("w", 7)]

/-- Two distinct random initialisations with the stored keys. -/
def rnd1 : StateDict := [("w", 100)]

def rnd2 : StateDict := [("w", 200)]

def adapter0 : StateDict := [("w", 2)]

/-- A library environment in which every call succeeds and the model path is
a raw weight-state file (not a directory). -/
def okLibs : Libs :=
  { fromPretrainedTok := fun _ => Except.ok tok0
    isdir := fun _ => false
    fromPretrainedModel := fun _ => Except.ok { config := t5c0, weights := sdStored }
    torchLoad := fun _ => Except.ok sdStored
    loadDatasetJson := fun _ _ _ => Except.ok [raw0]
    trainerTrain := fun _ => Except.ok []
    saveCsv := fun _ _ => Except.ok ()
    saveModel := fun _ _ => Except.ok ()
    peftFromPretrained := fun _ _ => Except.ok adapter0
    loadAdapter := fun _ => Except.ok adapter0
    savePretrained := fun _ _ => Except.ok () }

/-- Same as `okLibs` but the model path is a saved directory. -/
def okLibsDir : Libs := { okLibs with isdir := fun _ => true }

def dummyModel : TextToTextModel := { config := t5c0, weights := [] }

def dummyTrainResult : TrainDpoResult :=
  { savedDir := "", logFile := "", modelTrain := dummyModel, modelRef := dummyModel }

def dummyMergeResult : MergeResult :=
  { adapterDir := "", saveFile := "", baseWeightsLoaded := [],
    baseWeightsAfterMerge := [], adapterWeights := [], savedWeights := [] }

/-- Extract the result from a successful run (defaulting on error); used only
to state closed witness theorems. -/
def trainResOf (r : Except Err TrainDpoResult) : TrainDpoResult :=
  match r with
  | Except.ok v => v
  | Except.error _ => dummyTrainResult

def mergeResOf (r : Except Err MergeResult) : MergeResult :=
  match r with
  | Except.ok v => v
  | Except.error _ => dummyMergeResult

/-- The model produced in `okLibs`' raw weight-state branch (and by
`okLibsDir.fromPretrainedModel`). -/
def mTrained : TextToTextModel := { config := t5c0, weights := sdStored }

/-- A random initialisation whose keys do not match the stored weights,
making strict `load_state_dict` fail. -/
def badRand : StateDict := [("v", 1)]

/-! Library environments in which exactly one operation fails, used to
witness error propagation at each stage. -/

def failTokLibs : Libs := { okLibs with fromPretrainedTok := fun _ => Except.error "tok missing" }

def failDataLibs : Libs := { okLibs with loadDatasetJson := fun _ _ _ => Except.error "data missing" }

def failModelDirLibs : Libs := { okLibsDir with fromPretrainedModel := fun _ => Except.error "model dir missing" }

def failTorchLibs : Libs := { okLibs with torchLoad := fun _ => Except.error "weights missing" }

def failTrainLibs : Libs := { okLibs with trainerTrain := fun _ => Except.error "train failed" }

def failCsvLibs : Libs := { okLibs with saveCsv := fun _ _ => Except.error "csv failed" }

def failSaveModelLibs : Libs := { okLibs with saveModel := fun _ _ => Except.error "save failed" }

def failPeftLibs : Libs := { okLibsDir with peftFromPretrained := fun _ _ => Except.error "peft failed" }

def failAdapterLibs : Libs := { okLibsDir with loadAdapter := fun _ => Except.error "adapter missing" }

def failSavePretrainedLibs : Libs := { okLibsDir with savePretrained := fun _ _ => Except.error "save merged failed" }

/-! ## Basic lemmas -/

@[simp]
theorem exceptBind_ok {α β : Type} (a : α) (f : α → Except Err β) :
    (Except.ok a >>= f) = f a := rfl

@[simp]
theorem exceptBind_error {α β : Type} (e : Err) (f : α → Except Err β) :
    ((Except.error e : Except Err α) >>= f) = Except.error e := rfl

@[simp]
theorem exceptPure {α : Type} (a : α) :
    (pure a : Except Err α) = Except.ok a := rfl

/-- Success characterisation of `get_dataset`: when the underlying dataset
load succeeds, the produced dataset is the mapped-and-shuffled input,
independent of the ambient entropy. -/
theorem get_dataset_ok_spec (L : Libs) (entropy : Nat) (split file cache_dir : String)
    (raw : List RawSample) (h : L.loadDatasetJson split file cache_dir = Except.ok raw) :
    get_dataset L entropy split file cache_dir =
      Except.ok (pyShuffle 2333 (raw.map split_prompt_and_responses)) := by
  simp [get_dataset, h]

/-- Elements of a shuffled list come from the original list. -/
theorem mem_of_mem_pyShuffle {α : Type} {seed : Nat} {xs : List α} {a : α}
    (h : a ∈ pyShuffle seed xs) : a ∈ xs := by
  obtain ⟨i, _, hget⟩ := List.mem_filterMap.mp h
  exact List.get?_mem hget

/-- The seed-determined index walk is a permutation of its input list. -/
theorem fyFuel_perm (n : Nat) :
    ∀ (s : Nat) (l : List Nat), l.length = n → (fyFuel n s l).Perm l := by
  induction n with
  | zero =>
      intro s l h
      cases l with
      | nil => simp [fyFuel]
      | cons x rest => simp at h
  | succ n ih =>
      intro s l h
      cases l with
      | nil => simp at h
      | cons x rest =>
        have hi : s % (x :: rest).length < (x :: rest).length :=
          Nat.mod_lt _ (by simp)
        have hgetD : (x :: rest).getD (s % (x :: rest).length) 0 =
            (x :: rest)[s % (x :: rest).length] := List.getD_eq_getElem _ _ hi
        have herase : ((x :: rest).eraseIdx (s % (x :: rest).length)).length = n := by
          have := List.length_eraseIdx_add_one hi
          omega
        have hrec : (fyFuel n (lcg s) ((x :: rest).eraseIdx (s % (x :: rest).length))).Perm
            ((x :: rest).eraseIdx (s % (x :: rest).length)) := ih _ _ herase
        have hstep : fyFuel (n + 1) s (x :: rest) =
            (x :: rest).getD (s % (x :: rest).length) 0 ::
              fyFuel n (lcg s) ((x :: rest).eraseIdx (s % (x :: rest).length)) := rfl
        rw [hstep, hgetD]
        have h1 : (x :: rest).Perm
            ((x :: rest)[s % (x :: rest).length] ::
              (x :: rest).erase (x :: rest)[s % (x :: rest).length]) :=
          List.perm_cons_erase (List.getElem_mem hi)
        have h2 : ((x :: rest).erase (x :: rest)[s % (x :: rest).length]).Perm
            ((x :: rest).eraseIdx (s % (x :: rest).length)) := List.erase_getElem hi
        exact (hrec.cons _).trans ((h1.trans (h2.cons _)).symm)

/-- Selecting every index of `xs` in order returns `xs`. -/
theorem filterMap_get_range {α : Type} (xs : List α) :
    (List.range xs.length).filterMap (fun i => xs.get? i) = xs := by
  induction xs with
  | nil => rfl
  | cons x t ih =>
      rw [List.length_cons, List.range_succ_eq_map, List.filterMap_cons, List.filterMap_map]
      simp only [List.get?_cons_zero, Function.comp]
      exact congrArg (List.cons x) ih

/-- The modelled `Dataset.shuffle(seed)` is a permutation. -/
theorem pyShuffle_perm {α : Type} (seed : Nat) (xs : List α) :
    (pyShuffle seed xs).Perm xs := by
  have h := (fyFuel_perm xs.length seed (List.range xs.length)
      (List.length_range _)).filterMap (fun i => xs.get? i)
  rw [filterMap_get_range] at h
  exact h

/-- C1: `get_dataset` produces exactly the input samples with the literal
`[EOS]` marker appended to each of the three text fields: every input sample
appears in the output with `[EOS]` appended to each field, and every
produced sample is such a transformed input sample; in particular each field
of each produced sample ends with `[EOS]`. -/
theorem get_dataset_appends_eos (L : Libs) (entropy : Nat) (split file cache_dir : String)
    (raw out : List RawSample)
    (hraw : L.loadDatasetJson split file cache_dir = Except.ok raw)
    (hout : get_dataset L entropy split file cache_dir = Except.ok out) :
    (∀ r, r ∈ raw → split_prompt_and_responses r ∈ out ∧
      (split_prompt_and_responses r).prompt = r.prompt ++ "[EOS]" ∧
      (split_prompt_and_responses r).chosen = r.chosen ++ "[EOS]" ∧
      (split_prompt_and_responses r).rejected = r.rejected ++ "[EOS]") ∧
    (∀ s, s ∈ out → ∃ r, r ∈ raw ∧ s = split_prompt_and_responses r ∧
      s.prompt = r.prompt ++ "[EOS]" ∧
      s.chosen = r.chosen ++ "[EOS]" ∧
      s.rejected = r.rejected ++ "[EOS]" ∧
      (∃ p, s.prompt = p ++ "[EOS]") ∧
      (∃ p, s.chosen = p ++ "[EOS]") ∧
      (∃ p, s.rejected = p ++ "[EOS]")) := by
  rw [get_dataset_ok_spec L entropy split file cache_dir raw hraw] at hout
  have hout2 : out = pyShuffle 2333 (raw.map split_prompt_and_responses) :=
    (Except.ok.inj hout).symm
  constructor
  · intro r hr
    refine ⟨?_, rfl, rfl, rfl⟩
    rw [hout2, (pyShuffle_perm 2333 (raw.map split_prompt_and_responses)).mem_iff]
    exact List.mem_map_of_mem split_prompt_and_responses hr
  · intro s hs
    rw [hout2] at hs
    have hmem : s ∈ raw.map split_prompt_and_responses := mem_of_mem_pyShuffle hs
    obtain ⟨r, hr, hsr⟩ := List.mem_map.mp hmem
    refine ⟨r, hr, hsr.symm, ?_, ?_, ?_, ⟨r.prompt, ?_⟩, ⟨r.chosen, ?_⟩, ⟨r.rejected, ?_⟩⟩ <;>
      rw [← hsr] <;> rfl

/-- Witness for C1: concrete one-row dataset, both directions instantiated. -/
theorem get_dataset_appends_eos_witness :
    (split_prompt_and_responses raw0 ∈ [split_prompt_and_responses raw0] ∧
      (split_prompt_and_responses raw0).prompt = raw0.prompt ++ "[EOS]" ∧
      (split_prompt_and_responses raw0).chosen = raw0.chosen ++ "[EOS]" ∧
      (split_prompt_and_responses raw0).rejected = raw0.rejected ++ "[EOS]") ∧
    (∃ r, r ∈ [raw0] ∧ split_prompt_and_responses raw0 = split_prompt_and_responses r ∧
      (split_prompt_and_responses raw0).prompt = r.prompt ++ "[EOS]" ∧
      (split_prompt_and_responses raw0).chosen = r.chosen ++ "[EOS]" ∧
      (split_prompt_and_responses raw0).rejected = r.rejected ++ "[EOS]" ∧
      (∃ p, (split_prompt_and_responses raw0).prompt = p ++ "[EOS]") ∧
      (∃ p, (split_prompt_and_responses raw0).chosen = p ++ "[EOS]") ∧
      (∃ p, (split_prompt_and_responses raw0).rejected = p ++ "[EOS]")) :=
  ⟨(get_dataset_appends_eos okLibs 0 "train" "f" ".cache" [raw0]
      [split_prompt_and_responses raw0] rfl rfl).1 raw0 (List.mem_singleton.mpr rfl),
   (get_dataset_appends_eos okLibs 0 "train" "f" ".cache" [raw0]
      [split_prompt_and_responses raw0] rfl rfl).2
     (split_prompt_and_responses raw0) (List.mem_singleton.mpr rfl)⟩

/-- C6: `get_dataset` is deterministic — two runs over the same fixed input
file produce the same sequence of samples in the same order, regardless of
the ambient entropy available to each run; the order is the one given by the
shuffle with the fixed literal seed 2333. -/
theorem get_dataset_deterministic (L : Libs) (e1 e2 : Nat) (split file cache_dir : String) :
    get_dataset L e1 split file cache_dir = get_dataset L e2 split file cache_dir ∧
    (∀ raw, L.loadDatasetJson split file cache_dir = Except.ok raw →
      get_dataset L e1 split file cache_dir =
        Except.ok (pyShuffle 2333 (raw.map split_prompt_and_responses))) :=
  ⟨rfl, fun raw h => get_dataset_ok_spec L e1 split file cache_dir raw h⟩

/-- Witness for C6: two runs with different ambient entropy on the concrete
one-row dataset. -/
theorem get_dataset_deterministic_witness :
    get_dataset okLibs 0 "train" "f" ".cache" = get_dataset okLibs 1 "train" "f" ".cache" ∧
    get_dataset okLibs 0 "train" "f" ".cache" =
      Except.ok (pyShuffle 2333 ([raw0].map split_prompt_and_responses)) :=
  ⟨(get_dataset_deterministic okLibs 0 1 "train" "f" ".cache").1,
   (get_dataset_deterministic okLibs 0 1 "train" "f" ".cache").2 [raw0] rfl⟩

/-- Success characterisation of `loadModelPair`: in the directory branch both
models are the `from_pretrained` load of the saved directory; otherwise both
are a fresh architecture carrying exactly the raw weight-state file, whose
keys matched the random initialisations'. -/
theorem loadModelPair_ok_spec (L : Libs) (config : DpoConfig) (tok : Tokenizer)
    (r1 r2 : StateDict) (pair : TextToTextModel × TextToTextModel)
    (h : loadModelPair L config tok r1 r2 = Except.ok pair) :
    (L.isdir config.sft_model_file = true ∧
      ∃ m, L.fromPretrainedModel config.sft_model_file = Except.ok m ∧ pair = (m, m)) ∨
    (L.isdir config.sft_model_file = false ∧
      ∃ sd, L.torchLoad config.sft_model_file = Except.ok sd ∧
        sd.map Prod.fst = r1.map Prod.fst ∧ sd.map Prod.fst = r2.map Prod.fst ∧
        pair = ({ config := get_T5_config {} tok.length tok.pad_token_id tok.eos_token_id, weights := sd },
                { config := get_T5_config {} tok.length tok.pad_token_id tok.eos_token_id, weights := sd })) := by
  cases hd : L.isdir config.sft_model_file with
  | true =>
    left
    refine ⟨rfl, ?_⟩
    cases h1 : L.fromPretrainedModel config.sft_model_file with
    | error e => simp [loadModelPair, hd, h1] at h
    | ok m =>
      refine ⟨m, rfl, ?_⟩
      simp [loadModelPair, hd, h1] at h
      exact h.symm
  | false =>
    right
    refine ⟨rfl, ?_⟩
    cases h1 : L.torchLoad config.sft_model_file with
    | error e => simp [loadModelPair, hd, h1] at h
    | ok sd =>
      refine ⟨sd, rfl, ?_⟩
      by_cases hk1 : sd.map Prod.fst = r1.map Prod.fst
      · by_cases hk2 : sd.map Prod.fst = r2.map Prod.fst
        · refine ⟨hk1, hk2, ?_⟩
          have hk12 : r1.map Prod.fst = r2.map Prod.fst := hk1.symm.trans hk2
          simp [loadModelPair, hd, h1, TextToTextModel.load_state_dict,
                TextToTextModel.init, hk1, hk2, hk12] at h
          exact h.symm
        · exfalso
          have hk12 : ¬ (r1.map Prod.fst = r2.map Prod.fst) :=
            fun he => hk2 (hk1.trans he)
          simp [loadModelPair, hd, h1, TextToTextModel.load_state_dict,
                TextToTextModel.init, hk1, hk12] at h
      · exfalso
        simp [loadModelPair, hd, h1, TextToTextModel.load_state_dict,
              TextToTextModel.init, hk1] at h

/-- Success characterisation of `train_dpo`: a successful run loaded the
tokenizer, the model pair and the dataset, ran the trainer, and produced the
save directory and log file names by the script's string formulas. -/
theorem train_dpo_ok_spec (L : Libs) (config : DpoConfig) (peft_config : Option LoraConfig)
    (entropy : Nat) (r1 r2 : StateDict) (now : String) (res : TrainDpoResult)
    (h : train_dpo L config peft_config entropy r1 r2 now = Except.ok res) :
    ∃ tok pair ds log,
      L.fromPretrainedTok config.tokenizer_dir = Except.ok tok ∧
      loadModelPair L config tok r1 r2 = Except.ok pair ∧
      get_dataset L entropy "train" config.dpo_train_file ".cache" = Except.ok ds ∧
      L.trainerTrain (mkDPOTrainerInit config peft_config pair.1 pair.2 ds none tok) = Except.ok log ∧
      res = { savedDir := removeLastSegment config.sft_model_file ++
                (if peft_config.isSome then "/lora/" else "/dpo")
              logFile := "./logs/dpo_train_log_" ++ now ++ ".csv"
              modelTrain := pair.1
              modelRef := pair.2 } := by
  cases h1 : L.fromPretrainedTok config.tokenizer_dir with
  | error e => simp [train_dpo, h1] at h
  | ok tok =>
  cases h2 : loadModelPair L config tok r1 r2 with
  | error e => simp [train_dpo, h1, h2] at h
  | ok pair =>
  cases h3 : get_dataset L entropy "train" config.dpo_train_file ".cache" with
  | error e => simp [train_dpo, h1, h2, h3] at h
  | ok ds =>
  cases h4 : L.trainerTrain (mkDPOTrainerInit config peft_config pair.1 pair.2 ds none tok) with
  | error e => simp [train_dpo, h1, h2, h3, h4] at h
  | ok log =>
  cases h5 : L.saveCsv ("./logs/dpo_train_log_" ++ now ++ ".csv") log with
  | error e => simp [train_dpo, h1, h2, h3, h4, h5] at h
  | ok u =>
  cases h6 : L.saveModel (mkDPOTrainerInit config peft_config pair.1 pair.2 ds none tok)
      (pyJoin "/" ((pySplit config.sft_model_file '/').dropLast) ++
        (if peft_config.isSome then "/lora/" else "/dpo")) with
  | error e => simp [train_dpo, h1, h2, h3, h4, h5, h6] at h
  | ok v =>
    refine ⟨tok, pair, ds, log, rfl, h2, rfl, h4, ?_⟩
    simp [train_dpo, h1, h2, h3, h4, h5, h6, removeLastSegment] at h
    exact h.symm

/-- The heap steps of the merge: allocating the base model's weights, then
writing the merged weights through the shared reference, leaves the merged
weights readable through that same reference. -/
theorem heap_merge_step (w a : StateDict) :
    (((Heap.empty.alloc w).2.write (Heap.empty.alloc w).1
        (mergedWeights (((Heap.empty.alloc w).2).read (Heap.empty.alloc w).1) a)).read
      (Heap.empty.alloc w).1) = mergedWeights w a := rfl

/-- Success characterisation of `merge_lora_weight_into_model`: a successful
run loaded some base model and some adapter from the derived adapter
directory, and the result record carries the derived paths, the in-place
merged weights, and those same merged weights as the saved ones. -/
theorem merge_lora_ok_spec (L : Libs) (config : DpoConfig) (peft_config : LoraConfig)
    (rand : StateDict) (res : MergeResult)
    (h : merge_lora_weight_into_model L config peft_config rand = Except.ok res) :
    ∃ (m : TextToTextModel) (a : StateDict),
      L.loadAdapter (removeLastSegment config.sft_model_file ++ "/lora") = Except.ok a ∧
      res = { adapterDir := removeLastSegment config.sft_model_file ++ "/lora"
              saveFile := config.sft_model_file ++ ".dpo_lora_merged"
              baseWeightsLoaded := m.weights
              baseWeightsAfterMerge := mergedWeights m.weights a
              adapterWeights := a
              savedWeights := mergedWeights m.weights a } := by
  cases h1 : L.fromPretrainedTok config.tokenizer_dir with
  | error e => simp [merge_lora_weight_into_model, h1] at h
  | ok tok =>
  cases hd : L.isdir config.sft_model_file with
  | true =>
    cases h2 : L.fromPretrainedModel config.sft_model_file with
    | error e => simp [merge_lora_weight_into_model, h1, hd, h2] at h
    | ok m =>
    cases h3 : L.peftFromPretrained
        (pyJoin "/" ((pySplit config.sft_model_file '/').dropLast) ++ "/lora") peft_config with
    | error e => simp [merge_lora_weight_into_model, h1, hd, h2, h3] at h
    | ok a0 =>
    cases h4 : L.loadAdapter
        (pyJoin "/" ((pySplit config.sft_model_file '/').dropLast) ++ "/lora") with
    | error e => simp [merge_lora_weight_into_model, h1, hd, h2, h3, h4] at h
    | ok a =>
    cases h5 : L.savePretrained (config.sft_model_file ++ ".dpo_lora_merged")
        (mergedWeights m.weights a) with
    | error e =>
      simp [merge_lora_weight_into_model, h1, hd, h2, h3, h4, heap_merge_step, h5] at h
    | ok u =>
      refine ⟨m, a, ?_, ?_⟩
      · simpa [removeLastSegment] using h4
      · simp [merge_lora_weight_into_model, h1, hd, h2, h3, h4, heap_merge_step, h5,
              removeLastSegment] at h
        exact h.symm
  | false =>
    cases h2 : L.torchLoad config.sft_model_file with
    | error e => simp [merge_lora_weight_into_model, h1, hd, h2] at h
    | ok sd =>
    by_cases hk : sd.map Prod.fst = rand.map Prod.fst
    · cases h3 : L.peftFromPretrained
          (pyJoin "/" ((pySplit config.sft_model_file '/').dropLast) ++ "/lora") peft_config with
      | error e =>
        simp [merge_lora_weight_into_model, h1, hd, h2, h3,
              TextToTextModel.load_state_dict, TextToTextModel.init, hk] at h
      | ok a0 =>
      cases h4 : L.loadAdapter
          (pyJoin "/" ((pySplit config.sft_model_file '/').dropLast) ++ "/lora") with
      | error e =>
        simp [merge_lora_weight_into_model, h1, hd, h2, h3, h4,
              TextToTextModel.load_state_dict, TextToTextModel.init, hk] at h
      | ok a =>
      cases h5 : L.savePretrained (config.sft_model_file ++ ".dpo_lora_merged")
          (mergedWeights sd a) with
      | error e =>
        simp [merge_lora_weight_into_model, h1, hd, h2, h3, h4, heap_merge_step, h5,
              TextToTextModel.load_state_dict, TextToTextModel.init, hk] at h
      | ok u =>
        refine ⟨{ config := get_T5_config {} tok.length tok.pad_token_id tok.eos_token_id,
                  weights := sd }, a, ?_, ?_⟩
        · simpa [removeLastSegment] using h4
        · simp [merge_lora_weight_into_model, h1, hd, h2, h3, h4, heap_merge_step, h5,
                TextToTextModel.load_state_dict, TextToTextModel.init, hk,
                removeLastSegment] at h
          exact h.symm
    · exfalso
      simp [merge_lora_weight_into_model, h1, hd, h2,
            TextToTextModel.load_state_dict, TextToTextModel.init, hk] at h

/-- C2: `train_dpo` saves the trained artifact to the source model path with
its last segment removed, suffixed with `/lora/` when an adapter (peft)
configuration is supplied and with `/dpo` when it is not. -/
theorem train_dpo_save_dir (L : Libs) (config : DpoConfig) (peft_config : Option LoraConfig)
    (entropy : Nat) (r1 r2 : StateDict) (now : String) (res : TrainDpoResult)
    (h : train_dpo L config peft_config entropy r1 r2 now = Except.ok res) :
    res.savedDir = removeLastSegment config.sft_model_file ++
      (if peft_config.isSome then "/lora/" else "/dpo") := by
  obtain ⟨tok, pair, ds, log, _, _, _, _, hres⟩ :=
    train_dpo_ok_spec L config peft_config entropy r1 r2 now res h
  rw [hres]

/-- Witness for C2: a concrete successful run with an adapter configuration. -/
theorem train_dpo_save_dir_witness :
    (trainResOf (train_dpo okLibs DpoConfig.default (some mainPeftConfig) 0 rnd1 rnd2 "t")).savedDir =
      removeLastSegment DpoConfig.default.sft_model_file ++
        (if (some mainPeftConfig).isSome then "/lora/" else "/dpo") :=
  train_dpo_save_dir okLibs DpoConfig.default (some mainPeftConfig) 0 rnd1 rnd2 "t"
    (trainResOf (train_dpo okLibs DpoConfig.default (some mainPeftConfig) 0 rnd1 rnd2 "t")) rfl

/-- C7: in `train_dpo`, when the configured model path is a directory both
the trainable model and the frozen reference model are the `from_pretrained`
load of that saved directory; otherwise both carry exactly the raw
weight-state file's weights on a freshly constructed architecture derived
from the tokenizer. -/
theorem train_dpo_model_loading (L : Libs) (config : DpoConfig) (peft_config : Option LoraConfig)
    (entropy : Nat) (r1 r2 : StateDict) (now : String) (res : TrainDpoResult)
    (h : train_dpo L config peft_config entropy r1 r2 now = Except.ok res) :
    (∀ m, L.isdir config.sft_model_file = true →
        L.fromPretrainedModel config.sft_model_file = Except.ok m →
        res.modelTrain = m ∧ res.modelRef = m) ∧
    (∀ sd, L.isdir config.sft_model_file = false →
        L.torchLoad config.sft_model_file = Except.ok sd →
        res.modelTrain.weights = sd ∧ res.modelRef.weights = sd ∧
        ∃ tok, L.fromPretrainedTok config.tokenizer_dir = Except.ok tok ∧
          res.modelTrain.config = get_T5_config {} tok.length tok.pad_token_id tok.eos_token_id ∧
          res.modelRef.config = res.modelTrain.config) := by
  obtain ⟨tok, pair, ds, log, htok, hpair, _, _, hres⟩ :=
    train_dpo_ok_spec L config peft_config entropy r1 r2 now res h
  have hm := loadModelPair_ok_spec L config tok r1 r2 pair hpair
  constructor
  · intro m hdir hfp
    rcases hm with ⟨_, m', hfp', hpair'⟩ | ⟨hdir', _⟩
    · have hmm : m' = m := Except.ok.inj (hfp'.symm.trans hfp)
      subst hmm
      rw [hres, hpair']
      exact ⟨rfl, rfl⟩
    · simp [hdir] at hdir'
  · intro sd hdir htl
    rcases hm with ⟨hdir', _⟩ | ⟨_, sd', htl', hk1, hk2, hpair'⟩
    · simp [hdir] at hdir'
    · have hss : sd' = sd := Except.ok.inj (htl'.symm.trans htl)
      subst hss
      rw [hres, hpair']
      exact ⟨rfl, rfl, tok, htok, rfl, rfl⟩

/-- Witness for C7: a concrete run in the saved-directory branch. -/
theorem train_dpo_model_loading_witness :
    (trainResOf (train_dpo okLibsDir DpoConfig.default none 0 rnd1 rnd2 "t")).modelTrain =
        { config := t5c0, weights := sdStored } ∧
    (trainResOf (train_dpo okLibsDir DpoConfig.default none 0 rnd1 rnd2 "t")).modelRef =
        { config := t5c0, weights := sdStored } :=
  (train_dpo_model_loading okLibsDir DpoConfig.default none 0 rnd1 rnd2 "t"
      (trainResOf (train_dpo okLibsDir DpoConfig.default none 0 rnd1 rnd2 "t")) rfl).1
    { config := t5c0, weights := sdStored } rfl rfl

/-- C10: after model loading, the frozen reference model's weights equal the
trainable model's weights, in both branches — in particular in the raw
weight-state branch this holds even though the two fresh constructions start
from different random initialisations. -/
theorem train_dpo_ref_weights_eq (L : Libs) (config : DpoConfig) (peft_config : Option LoraConfig)
    (entropy : Nat) (r1 r2 : StateDict) (now : String) (res : TrainDpoResult)
    (h : train_dpo L config peft_config entropy r1 r2 now = Except.ok res) :
    res.modelRef.weights = res.modelTrain.weights := by
  obtain ⟨tok, pair, ds, log, htok, hpair, _, _, hres⟩ :=
    train_dpo_ok_spec L config peft_config entropy r1 r2 now res h
  rcases loadModelPair_ok_spec L config tok r1 r2 pair hpair with
    ⟨_, m, _, hp⟩ | ⟨_, sd, _, _, _, hp⟩ <;> rw [hres, hp]

/-- Witness for C10: a concrete run in the raw weight-state branch, with two
distinct random initialisations. -/
theorem train_dpo_ref_weights_eq_witness :
    (trainResOf (train_dpo okLibs DpoConfig.default none 0 rnd1 rnd2 "t")).modelRef.weights =
    (trainResOf (train_dpo okLibs DpoConfig.default none 0 rnd1 rnd2 "t")).modelTrain.weights ∧
    rnd1 ≠ rnd2 :=
  ⟨train_dpo_ref_weights_eq okLibs DpoConfig.default none 0 rnd1 rnd2 "t"
      (trainResOf (train_dpo okLibs DpoConfig.default none 0 rnd1 rnd2 "t")) rfl,
   by decide⟩

/-- C3: `merge_lora_weight_into_model` loads the adapter from the directory
equal to the base-model path minus its last segment plus `/lora`, and writes
the merged model to the base-model path plus `.dpo_lora_merged`. -/
theorem merge_lora_paths (L : Libs) (config : DpoConfig) (peft_config : LoraConfig)
    (rand : StateDict) (res : MergeResult)
    (h : merge_lora_weight_into_model L config peft_config rand = Except.ok res) :
    res.adapterDir = removeLastSegment config.sft_model_file ++ "/lora" ∧
    res.saveFile = config.sft_model_file ++ ".dpo_lora_merged" ∧
    ∃ a, L.loadAdapter res.adapterDir = Except.ok a ∧ res.adapterWeights = a := by
  obtain ⟨m, a, hla, hres⟩ := merge_lora_ok_spec L config peft_config rand res h
  rw [hres]
  exact ⟨rfl, rfl, a, hla, rfl⟩

/-- Witness for C3: a concrete successful merge run. -/
theorem merge_lora_paths_witness :
    (mergeResOf (merge_lora_weight_into_model okLibs DpoConfig.default mainPeftConfig rnd1)).adapterDir =
      removeLastSegment DpoConfig.default.sft_model_file ++ "/lora" ∧
    (mergeResOf (merge_lora_weight_into_model okLibs DpoConfig.default mainPeftConfig rnd1)).saveFile =
      DpoConfig.default.sft_model_file ++ ".dpo_lora_merged" ∧
    ∃ a, okLibs.loadAdapter
        (mergeResOf (merge_lora_weight_into_model okLibs DpoConfig.default mainPeftConfig rnd1)).adapterDir =
        Except.ok a ∧
      (mergeResOf (merge_lora_weight_into_model okLibs DpoConfig.default mainPeftConfig rnd1)).adapterWeights = a :=
  merge_lora_paths okLibs DpoConfig.default mainPeftConfig rnd1
    (mergeResOf (merge_lora_weight_into_model okLibs DpoConfig.default mainPeftConfig rnd1)) rfl

/-- C5: the merge updates the base model's weights in place to the merged
weights, and the weights written to the output path are exactly the base
model's weights after the merge (the saved model is the merged model). -/
theorem merge_saves_merged_model (L : Libs) (config : DpoConfig) (peft_config : LoraConfig)
    (rand : StateDict) (res : MergeResult)
    (h : merge_lora_weight_into_model L config peft_config rand = Except.ok res) :
    res.baseWeightsAfterMerge = mergedWeights res.baseWeightsLoaded res.adapterWeights ∧
    res.savedWeights = res.baseWeightsAfterMerge := by
  obtain ⟨m, a, _, hres⟩ := merge_lora_ok_spec L config peft_config rand res h
  rw [hres]
  exact ⟨rfl, rfl⟩

/-- Witness for C5: a concrete successful merge run. -/
theorem merge_saves_merged_model_witness :
    (mergeResOf (merge_lora_weight_into_model okLibs DpoConfig.default mainPeftConfig rnd1)).baseWeightsAfterMerge =
      mergedWeights
        (mergeResOf (merge_lora_weight_into_model okLibs DpoConfig.default mainPeftConfig rnd1)).baseWeightsLoaded
        (mergeResOf (merge_lora_weight_into_model okLibs DpoConfig.default mainPeftConfig rnd1)).adapterWeights ∧
    (mergeResOf (merge_lora_weight_into_model okLibs DpoConfig.default mainPeftConfig rnd1)).savedWeights =
      (mergeResOf (merge_lora_weight_into_model okLibs DpoConfig.default mainPeftConfig rnd1)).baseWeightsAfterMerge :=
  merge_saves_merged_model okLibs DpoConfig.default mainPeftConfig rnd1
    (mergeResOf (merge_lora_weight_into_model okLibs DpoConfig.default mainPeftConfig rnd1)) rfl

/-- Splitting after appending a separator appends one empty segment. -/
theorem pySplitAux_append_sep (sep : Char) (cs : List Char) :
    ∀ acc, pySplitAux sep (cs ++ [sep]) acc = pySplitAux sep cs acc ++ [""] := by
  induction cs with
  | nil => intro acc; simp [pySplitAux]
  | cons c cs ih =>
      intro acc
      by_cases hc : c = sep <;> simp [pySplitAux, hc, ih]

theorem pySplit_append_slash (x : String) :
    pySplit (x ++ "/") '/' = pySplit x '/' ++ [""] := by
  rw [pySplit, String.data_append]
  exact pySplitAux_append_sep '/' x.data []

/-- A trailing slash does not change the nonempty path segments. -/
theorem pathSegments_append_slash (x : String) :
    pathSegments (x ++ "/") = pathSegments x := by
  simp [pathSegments, pySplit_append_slash, List.filter_append]

/-- C9: the directory `train_dpo` saves the adapter to (`…/lora/`) and the
directory `merge_lora_weight_into_model` loads the adapter from (`…/lora`)
differ exactly by a trailing slash, and have the same nonempty path
segments, hence denote the same filesystem directory. -/
theorem save_dir_matches_adapter_dir (L1 L2 : Libs) (config : DpoConfig) (p : LoraConfig)
    (entropy : Nat) (r1 r2 rand : StateDict) (now : String)
    (tres : TrainDpoResult) (mres : MergeResult)
    (h1 : train_dpo L1 config (some p) entropy r1 r2 now = Except.ok tres)
    (h2 : merge_lora_weight_into_model L2 config p rand = Except.ok mres) :
    tres.savedDir = mres.adapterDir ++ "/" ∧
    pathSegments tres.savedDir = pathSegments mres.adapterDir := by
  obtain ⟨tok, pair, ds, log, _, _, _, _, hres⟩ :=
    train_dpo_ok_spec L1 config (some p) entropy r1 r2 now tres h1
  obtain ⟨m, a, _, hmres⟩ := merge_lora_ok_spec L2 config p rand mres h2
  have hslash : removeLastSegment config.sft_model_file ++
      (if (some p).isSome then "/lora/" else "/dpo") =
      (removeLastSegment config.sft_model_file ++ "/lora") ++ "/" := by
    rw [Option.isSome_some, if_pos rfl, String.append_assoc]; rfl
  constructor
  · rw [hres, hmres]
    exact hslash
  · rw [hres, hmres]
    show pathSegments (removeLastSegment config.sft_model_file ++
        (if (some p).isSome then "/lora/" else "/dpo")) =
      pathSegments (removeLastSegment config.sft_model_file ++ "/lora")
    rw [hslash, pathSegments_append_slash]

/-- Witness for C9: concrete successful train and merge runs over the same
configuration. -/
theorem save_dir_matches_adapter_dir_witness :
    (trainResOf (train_dpo okLibs DpoConfig.default (some mainPeftConfig) 0 rnd1 rnd2 "t")).savedDir =
      (mergeResOf (merge_lora_weight_into_model okLibs DpoConfig.default mainPeftConfig rnd1)).adapterDir ++ "/" ∧
    pathSegments
        (trainResOf (train_dpo okLibs DpoConfig.default (some mainPeftConfig) 0 rnd1 rnd2 "t")).savedDir =
      pathSegments
        (mergeResOf (merge_lora_weight_into_model okLibs DpoConfig.default mainPeftConfig rnd1)).adapterDir :=
  save_dir_matches_adapter_dir okLibs okLibs DpoConfig.default mainPeftConfig 0 rnd1 rnd2 rnd1 "t"
    (trainResOf (train_dpo okLibs DpoConfig.default (some mainPeftConfig) 0 rnd1 rnd2 "t"))
    (mergeResOf (merge_lora_weight_into_model okLibs DpoConfig.default mainPeftConfig rnd1)) rfl rfl

/-- C4 counterexample: the `__main__` block does not call `train_dpo` with
the hardcoded adapter settings it constructs — its behaviour differs from
that call on a concrete successful environment (the save directory ends in
`/dpo`, not `/lora/`, because line 186 passes `peft_config=None`). -/
theorem main_passes_hardcoded_adapter_counterexample :
    ¬ (pymain okLibs 0 rnd1 rnd2 "t" =
        train_dpo okLibs DpoConfig.default (some mainPeftConfig) 0 rnd1 rnd2 "t") := by
  intro h
  have h2 : (trainResOf (pymain okLibs 0 rnd1 rnd2 "t")).savedDir =
      (trainResOf (train_dpo okLibs DpoConfig.default (some mainPeftConfig) 0 rnd1 rnd2 "t")).savedDir := by
    rw [h]
  exact absurd h2 (by decide)

/-- C4 (amended): the `__main__` entry point, which takes no CLI flags,
constructs the hardcoded adapter (LoRA) settings but calls the training
orchestrator `train_dpo` with `peft_config=None`, leaving the constructed
adapter settings unused (the merge invocation that would use them is
commented out in the source). -/
theorem main_calls_train_dpo_with_none (L : Libs) (entropy : Nat) (r1 r2 : StateDict) (now : String) :
    pymain L entropy r1 r2 now = train_dpo L DpoConfig.default none entropy r1 r2 now ∧
    mainPeftConfig = { task_type := "SEQ_2_SEQ_LM", inference_mode := false, r := 16,
                       lora_alpha := 16, lora_dropout := 1 / 10, bias := "all" } :=
  ⟨rfl, rfl⟩

/-- C8: no error is caught, transformed, retried, or partially handled by
authored code — at every stage of `get_dataset`, `train_dpo` and
`merge_lora_weight_into_model`, if the underlying library call raises an
error (with the earlier calls succeeding), the function's result is that
same error, unmodified. -/
theorem no_error_handling (L : Libs) (config : DpoConfig) (peft_config : Option LoraConfig)
    (peftc : LoraConfig) (entropy : Nat) (r1 r2 rand : StateDict)
    (now split file cache_dir : String) (e : Err) :
    -- get_dataset: dataset load fails
    (L.loadDatasetJson split file cache_dir = Except.error e →
      get_dataset L entropy split file cache_dir = Except.error e) ∧
    -- train_dpo: tokenizer load fails
    (L.fromPretrainedTok config.tokenizer_dir = Except.error e →
      train_dpo L config peft_config entropy r1 r2 now = Except.error e) ∧
    -- train_dpo: from_pretrained model load fails (directory branch)
    (∀ tok, L.fromPretrainedTok config.tokenizer_dir = Except.ok tok →
      L.isdir config.sft_model_file = true →
      L.fromPretrainedModel config.sft_model_file = Except.error e →
      train_dpo L config peft_config entropy r1 r2 now = Except.error e) ∧
    -- train_dpo: torch.load fails (raw weight-state branch)
    (∀ tok, L.fromPretrainedTok config.tokenizer_dir = Except.ok tok →
      L.isdir config.sft_model_file = false →
      L.torchLoad config.sft_model_file = Except.error e →
      train_dpo L config peft_config entropy r1 r2 now = Except.error e) ∧
    -- train_dpo: strict load_state_dict fails
    (∀ tok sd, L.fromPretrainedTok config.tokenizer_dir = Except.ok tok →
      L.isdir config.sft_model_file = false →
      L.torchLoad config.sft_model_file = Except.ok sd →
      (TextToTextModel.init
          (get_T5_config {} tok.length tok.pad_token_id tok.eos_token_id) r1).load_state_dict sd =
        Except.error e →
      train_dpo L config peft_config entropy r1 r2 now = Except.error e) ∧
    -- train_dpo: training dataset load fails
    (∀ tok pair, L.fromPretrainedTok config.tokenizer_dir = Except.ok tok →
      loadModelPair L config tok r1 r2 = Except.ok pair →
      L.loadDatasetJson "train" config.dpo_train_file ".cache" = Except.error e →
      train_dpo L config peft_config entropy r1 r2 now = Except.error e) ∧
    -- train_dpo: trainer.train fails
    (∀ tok pair ds, L.fromPretrainedTok config.tokenizer_dir = Except.ok tok →
      loadModelPair L config tok r1 r2 = Except.ok pair →
      get_dataset L entropy "train" config.dpo_train_file ".cache" = Except.ok ds →
      L.trainerTrain (mkDPOTrainerInit config peft_config pair.1 pair.2 ds none tok) =
        Except.error e →
      train_dpo L config peft_config entropy r1 r2 now = Except.error e) ∧
    -- train_dpo: writing the loss-history CSV fails
    (∀ tok pair ds log, L.fromPretrainedTok config.tokenizer_dir = Except.ok tok →
      loadModelPair L config tok r1 r2 = Except.ok pair →
      get_dataset L entropy "train" config.dpo_train_file ".cache" = Except.ok ds →
      L.trainerTrain (mkDPOTrainerInit config peft_config pair.1 pair.2 ds none tok) =
        Except.ok log →
      L.saveCsv ("./logs/dpo_train_log_" ++ now ++ ".csv") log = Except.error e →
      train_dpo L config peft_config entropy r1 r2 now = Except.error e) ∧
    -- train_dpo: saving the model or adapter fails
    (∀ tok pair ds log, L.fromPretrainedTok config.tokenizer_dir = Except.ok tok →
      loadModelPair L config tok r1 r2 = Except.ok pair →
      get_dataset L entropy "train" config.dpo_train_file ".cache" = Except.ok ds →
      L.trainerTrain (mkDPOTrainerInit config peft_config pair.1 pair.2 ds none tok) =
        Except.ok log →
      L.saveCsv ("./logs/dpo_train_log_" ++ now ++ ".csv") log = Except.ok () →
      L.saveModel (mkDPOTrainerInit config peft_config pair.1 pair.2 ds none tok)
          (pyJoin "/" ((pySplit config.sft_model_file '/').dropLast) ++
            (if peft_config.isSome then "/lora/" else "/dpo")) = Except.error e →
      train_dpo L config peft_config entropy r1 r2 now = Except.error e) ∧
    -- merge: tokenizer load fails
    (L.fromPretrainedTok config.tokenizer_dir = Except.error e →
      merge_lora_weight_into_model L config peftc rand = Except.error e) ∧
    -- merge: from_pretrained model load fails (directory branch)
    (∀ tok, L.fromPretrainedTok config.tokenizer_dir = Except.ok tok →
      L.isdir config.sft_model_file = true →
      L.fromPretrainedModel config.sft_model_file = Except.error e →
      merge_lora_weight_into_model L config peftc rand = Except.error e) ∧
    -- merge: torch.load fails (raw weight-state branch)
    (∀ tok, L.fromPretrainedTok config.tokenizer_dir = Except.ok tok →
      L.isdir config.sft_model_file = false →
      L.torchLoad config.sft_model_file = Except.error e →
      merge_lora_weight_into_model L config peftc rand = Except.error e) ∧
    -- merge: PeftModel.from_pretrained fails
    (∀ tok m, L.fromPretrainedTok config.tokenizer_dir = Except.ok tok →
      L.isdir config.sft_model_file = true →
      L.fromPretrainedModel config.sft_model_file = Except.ok m →
      L.peftFromPretrained
          (pyJoin "/" ((pySplit config.sft_model_file '/').dropLast) ++ "/lora") peftc =
        Except.error e →
      merge_lora_weight_into_model L config peftc rand = Except.error e) ∧
    -- merge: load_adapter fails
    (∀ tok m a0, L.fromPretrainedTok config.tokenizer_dir = Except.ok tok →
      L.isdir config.sft_model_file = true →
      L.fromPretrainedModel config.sft_model_file = Except.ok m →
      L.peftFromPretrained
          (pyJoin "/" ((pySplit config.sft_model_file '/').dropLast) ++ "/lora") peftc =
        Except.ok a0 →
      L.loadAdapter (pyJoin "/" ((pySplit config.sft_model_file '/').dropLast) ++ "/lora") =
        Except.error e →
      merge_lora_weight_into_model L config peftc rand = Except.error e) ∧
    -- merge: save_pretrained of the merged model fails
    (∀ tok m a0 a, L.fromPretrainedTok config.tokenizer_dir = Except.ok tok →
      L.isdir config.sft_model_file = true →
      L.fromPretrainedModel config.sft_model_file = Except.ok m →
      L.peftFromPretrained
          (pyJoin "/" ((pySplit config.sft_model_file '/').dropLast) ++ "/lora") peftc =
        Except.ok a0 →
      L.loadAdapter (pyJoin "/" ((pySplit config.sft_model_file '/').dropLast) ++ "/lora") =
        Except.ok a →
      L.savePretrained (config.sft_model_file ++ ".dpo_lora_merged")
          (mergedWeights m.weights a) = Except.error e →
      merge_lora_weight_into_model L config peftc rand = Except.error e) := by
  refine ⟨?_, ?_, ?_, ?_, ?_, ?_, ?_, ?_, ?_, ?_, ?_, ?_, ?_, ?_, ?_⟩
  · intro h
    simp [get_dataset, h]
  · intro h
    simp [train_dpo, h]
  · intro tok htok hdir hfp
    simp [train_dpo, loadModelPair, htok, hdir, hfp]
  · intro tok htok hdir htl
    simp [train_dpo, loadModelPair, htok, hdir, htl]
  · intro tok sd htok hdir htl hlsd
    simp [train_dpo, loadModelPair, htok, hdir, htl, hlsd]
  · intro tok pair htok hpair hds
    simp [train_dpo, get_dataset, htok, hpair, hds]
  · intro tok pair ds htok hpair hds htr
    simp [train_dpo, htok, hpair, hds, htr]
  · intro tok pair ds log htok hpair hds htr hcsv
    simp [train_dpo, htok, hpair, hds, htr, hcsv]
  · intro tok pair ds log htok hpair hds htr hcsv hsm
    simp [train_dpo, htok, hpair, hds, htr, hcsv, hsm]
  · intro h
    simp [merge_lora_weight_into_model, h]
  · intro tok htok hdir hfp
    simp [merge_lora_weight_into_model, htok, hdir, hfp]
  · intro tok htok hdir htl
    simp [merge_lora_weight_into_model, htok, hdir, htl]
  · intro tok m htok hdir hfp hpf
    simp [merge_lora_weight_into_model, htok, hdir, hfp, hpf]
  · intro tok m a0 htok hdir hfp hpf hla
    simp [merge_lora_weight_into_model, htok, hdir, hfp, hpf, hla]
  · intro tok m a0 a htok hdir hfp hpf hla hsp
    simp [merge_lora_weight_into_model, htok, hdir, hfp, hpf, hla, heap_merge_step, hsp]

/-- Witness for C8: at each stage, a concrete library environment in which
exactly that call fails makes the function return that error unmodified. -/
theorem no_error_handling_witness :
    get_dataset failDataLibs 0 "train" "f" ".cache" = Except.error "data missing" ∧
    train_dpo failTokLibs DpoConfig.default none 0 rnd1 rnd2 "t" = Except.error "tok missing" ∧
    train_dpo failModelDirLibs DpoConfig.default none 0 rnd1 rnd2 "t" =
      Except.error "model dir missing" ∧
    train_dpo failTorchLibs DpoConfig.default none 0 rnd1 rnd2 "t" =
      Except.error "weights missing" ∧
    train_dpo okLibs DpoConfig.default none 0 badRand rnd2 "t" =
      Except.error "load_state_dict: missing or unexpected keys in state_dict" ∧
    train_dpo failDataLibs DpoConfig.default none 0 rnd1 rnd2 "t" =
      Except.error "data missing" ∧
    train_dpo failTrainLibs DpoConfig.default none 0 rnd1 rnd2 "t" =
      Except.error "train failed" ∧
    train_dpo failCsvLibs DpoConfig.default none 0 rnd1 rnd2 "t" =
      Except.error "csv failed" ∧
    train_dpo failSaveModelLibs DpoConfig.default none 0 rnd1 rnd2 "t" =
      Except.error "save failed" ∧
    merge_lora_weight_into_model failTokLibs DpoConfig.default mainPeftConfig rnd1 =
      Except.error "tok missing" ∧
    merge_lora_weight_into_model failModelDirLibs DpoConfig.default mainPeftConfig rnd1 =
      Except.error "model dir missing" ∧
    merge_lora_weight_into_model failTorchLibs DpoConfig.default mainPeftConfig rnd1 =
      Except.error "weights missing" ∧
    merge_lora_weight_into_model failPeftLibs DpoConfig.default mainPeftConfig rnd1 =
      Except.error "peft failed" ∧
    merge_lora_weight_into_model failAdapterLibs DpoConfig.default mainPeftConfig rnd1 =
      Except.error "adapter missing" ∧
    merge_lora_weight_into_model failSavePretrainedLibs DpoConfig.default mainPeftConfig rnd1 =
      Except.error "save merged failed" :=
  ⟨(no_error_handling failDataLibs DpoConfig.default none mainPeftConfig 0 rnd1 rnd2 rnd1
      "t" "train" "f" ".cache" "data missing").1 rfl,
   (no_error_handling failTokLibs DpoConfig.default none mainPeftConfig 0 rnd1 rnd2 rnd1
      "t" "train" "f" ".cache" "tok missing").2.1 rfl,
   (no_error_handling failModelDirLibs DpoConfig.default none mainPeftConfig 0 rnd1 rnd2 rnd1
      "t" "train" "f" ".cache" "model dir missing").2.2.1 tok0 rfl rfl rfl,
   (no_error_handling failTorchLibs DpoConfig.default none mainPeftConfig 0 rnd1 rnd2 rnd1
      "t" "train" "f" ".cache" "weights missing").2.2.2.1 tok0 rfl rfl rfl,
   (no_error_handling okLibs DpoConfig.default none mainPeftConfig 0 badRand rnd2 rnd1
      "t" "train" "f" ".cache"
      "load_state_dict: missing or unexpected keys in state_dict").2.2.2.2.1
     tok0 sdStored rfl rfl rfl rfl,
   (no_error_handling failDataLibs DpoConfig.default none mainPeftConfig 0 rnd1 rnd2 rnd1
      "t" "train" "f" ".cache" "data missing").2.2.2.2.2.1
     tok0 (mTrained, mTrained) rfl rfl rfl,
   (no_error_handling failTrainLibs DpoConfig.default none mainPeftConfig 0 rnd1 rnd2 rnd1
      "t" "train" "f" ".cache" "train failed").2.2.2.2.2.2.1
     tok0 (mTrained, mTrained) [split_prompt_and_responses raw0] rfl rfl rfl rfl,
   (no_error_handling failCsvLibs DpoConfig.default none mainPeftConfig 0 rnd1 rnd2 rnd1
      "t" "train" "f" ".cache" "csv failed").2.2.2.2.2.2.2.1
     tok0 (mTrained, mTrained) [split_prompt_and_responses raw0] [] rfl rfl rfl rfl rfl,
   (no_error_handling failSaveModelLibs DpoConfig.default none mainPeftConfig 0 rnd1 rnd2 rnd1
      "t" "train" "f" ".cache" "save failed").2.2.2.2.2.2.2.2.1
     tok0 (mTrained, mTrained) [split_prompt_and_responses raw0] [] rfl rfl rfl rfl rfl rfl,
   (no_error_handling failTokLibs DpoConfig.default none mainPeftConfig 0 rnd1 rnd2 rnd1
      "t" "train" "f" ".cache" "tok missing").2.2.2.2.2.2.2.2.2.1 rfl,
   (no_error_handling failModelDirLibs DpoConfig.default none mainPeftConfig 0 rnd1 rnd2 rnd1
      "t" "train" "f" ".cache" "model dir missing").2.2.2.2.2.2.2.2.2.2.1 tok0 rfl rfl rfl,
   (no_error_handling failTorchLibs DpoConfig.default none mainPeftConfig 0 rnd1 rnd2 rnd1
      "t" "train" "f" ".cache" "weights missing").2.2.2.2.2.2.2.2.2.2.2.1 tok0 rfl rfl rfl,
   (no_error_handling failPeftLibs DpoConfig.default none mainPeftConfig 0 rnd1 rnd2 rnd1
      "t" "train" "f" ".cache" "peft failed").2.2.2.2.2.2.2.2.2.2.2.2.1
     tok0 mTrained rfl rfl rfl rfl,
   (no_error_handling failAdapterLibs DpoConfig.default none mainPeftConfig 0 rnd1 rnd2 rnd1
      "t" "train" "f" ".cache" "adapter missing").2.2.2.2.2.2.2.2.2.2.2.2.2.1
     tok0 mTrained adapter0 rfl rfl rfl rfl rfl,
   (no_error_handling failSavePretrainedLibs DpoConfig.default none mainPeftConfig 0 rnd1 rnd2 rnd1
      "t" "train" "f" ".cache" "save merged failed").2.2.2.2.2.2.2.2.2.2.2.2.2.2
     tok0 mTrained adapter0 adapter0 rfl rfl rfl rfl rfl rfl⟩
